import Mathlib

/-!
Verification of the reconciliation core of `rails_api_postman_sync.py`.

The Python functions are shallowly embedded as pure Lean functions over
explicit data types.  Python dictionaries with optional keys are embedded as
structures; a key that every read site accesses through `.get(key, default)`
with one consistent default is collapsed to a plain field holding that
default when the key is absent (the collapse is observationally faithful
because no code path distinguishes the absent key from the default).  Keys
whose presence is itself observed (`"request" in item`, `if "path" in
url_obj`, truthiness of a body dict, the per-site defaults of `"default"`)
stay `Option`s.

String operations mirror Python: `sub in s`, `s.split(sep)`,
`s.split(sep, 1)`, `s.startswith`, `s.endswith`, `s.strip`, `s[:-n]` are
implemented on the character list of the string so that every definition is
executable and kernel-reducible.
-/

namespace RailsSync

/-- First occurrence of `sep` (a non-empty character list) in `l`:
`some (before, after)` with `l = before ++ sep ++ after` and no earlier
occurrence, `none` when `sep` does not occur.  This is the engine behind the
Python `in`, `split` and `partition` operations used by the source. -/
def chSplitFirst (sep : List Char) : List Char → Option (List Char × List Char)
  | [] => if sep.isEmpty then some ([], []) else none
  | c :: rest =>
    if sep.isPrefixOf (c :: rest) then some ([], (c :: rest).drop sep.length)
    else match chSplitFirst sep rest with
      | some (b, a) => some (c :: b, a)
      | none => none

/-- Python `sub in s` (substring containment). -/
def pyContains (s sub : String) : Bool :=
  (chSplitFirst sub.data s.data).isSome

/-- Python `s.split(sep)[0]`: the text before the first occurrence of `sep`
(`s` itself when `sep` does not occur). -/
def pyBefore (s sep : String) : String :=
  match chSplitFirst sep.data s.data with
  | some (b, _) => ⟨b⟩
  | none => s

/-- Python `s.split(sep, 1)[1]`: the text after the first occurrence of
`sep` (meaningful only when `sep` occurs; `""` otherwise). -/
def pyAfter (s sep : String) : String :=
  match chSplitFirst sep.data s.data with
  | some (_, a) => ⟨a⟩
  | none => ""

/-- Worker of `pySplitCh`: structural recursion on a fuel that bounds the
number of splits (each occurrence of a non-empty separator consumes at
least one character, so `l.length + 1` suffices). -/
def pySplitChAux (sep : List Char) : Nat → List Char → List (List Char)
  | 0, l => [l]
  | fuel + 1, l =>
    match chSplitFirst sep l with
    | none => [l]
    | some (b, a) => b :: pySplitChAux sep fuel a

/-- Python `s.split(sep)` for a non-empty separator, splitting on every
occurrence. -/
def pySplitCh (sep l : List Char) : List (List Char) :=
  pySplitChAux sep (l.length + 1) l

/-- Python `s.split(sep)` on strings. -/
def pySplit (s sep : String) : List String :=
  (pySplitCh sep.data s.data).map (fun l => ⟨l⟩)

/-- Python `s.startswith(pre)`. -/
def pyStartsWith (s pre : String) : Bool :=
  pre.data.isPrefixOf s.data

/-- Python `s.endswith(suf)`. -/
def pyEndsWith (s suf : String) : Bool :=
  suf.data.isSuffixOf s.data

/-- Python `s[:-n]` for `n > 0` (all but the last `n` characters). -/
def pyDropRight (s : String) (n : Nat) : String :=
  ⟨s.data.take (s.data.length - n)⟩

/-- Python `s.strip()`: whitespace trimmed from both ends (modelled for
space, tab, CR and LF — the whitespace the merged texts carry; Python also
strips `\f`, `\v` and Unicode spaces). -/
def pyStrip (s : String) : String :=
  ⟨(s.data.dropWhile Char.isWhitespace).reverse.dropWhile Char.isWhitespace |>.reverse⟩

/-- Python `sep.join(parts)`. -/
def pyJoin (sep : String) (parts : List String) : String :=
  match parts with
  | [] => ""
  | p :: rest => rest.foldl (fun acc q => acc ++ sep ++ q) p

/-- `remove_format_extension` (src/rails_api_postman_sync.py:431-439):
strips one trailing Rails format extension, trying `.json`, `.xml`,
`.html`, `.csv`, `.pdf`, `.txt` in that order. -/
def remove_format_extension (path : String) : String :=
  if pyEndsWith path ".json" then pyDropRight path 5
  else if pyEndsWith path ".xml" then pyDropRight path 4
  else if pyEndsWith path ".html" then pyDropRight path 5
  else if pyEndsWith path ".csv" then pyDropRight path 4
  else if pyEndsWith path ".pdf" then pyDropRight path 4
  else if pyEndsWith path ".txt" then pyDropRight path 4
  else path

/-- Whether `s` ends in one of the six format extensions of
`remove_format_extension` (the condition under which that function strips
something). -/
def hasFormatExtension (s : String) : Bool :=
  pyEndsWith s ".json" || pyEndsWith s ".xml" || pyEndsWith s ".html" ||
  pyEndsWith s ".csv" || pyEndsWith s ".pdf" || pyEndsWith s ".txt"

/-- A valid scheme character for the URL parser (letters, digits, `+`, `-`,
`.`), per CPython `urllib.parse`. -/
def schemeChar (c : Char) : Bool :=
  c.isAlphanum || c == '+' || c == '-' || c == '.'

/-- Models the path component of the Python standard-library call
`urllib.parse.urlparse(url).path` (a dependency of
`extract_clean_path_from_string`, not repository code): split off
`scheme:`, then `//netloc` (ended by the first `/`, `?` or `#`), then the
`#fragment`, then the `?query`, then the `;params` of the last path
segment. -/
def urlparse_path (url : String) : String :=
  -- scheme
  let u1 :=
    if pyContains url ":" ∧ pyBefore url ":" ≠ "" ∧ (pyBefore url ":").data.all schemeChar
    then pyAfter url ":" else url
  -- netloc
  let u2 :=
    if pyStartsWith u1 "//" then
      ⟨(u1.data.drop 2).dropWhile (fun c => !(c == '/' || c == '?' || c == '#'))⟩
    else u1
  -- fragment
  let u3 := if pyContains u2 "#" then pyBefore u2 "#" else u2
  -- query
  let u4 := if pyContains u3 "?" then pyBefore u3 "?" else u3
  -- params of the last segment (urlparse's _splitparams)
  if pyContains u4 ";" then
    if pyContains u4 "/" then
      let parts := pySplit u4 "/"
      let seg := parts.getLastD ""
      if pyContains seg ";" then
        pyJoin "/" (parts.dropLast) ++ "/" ++ pyBefore seg ";"
      else u4
    else pyBefore u4 ";"
  else u4

/-- `extract_clean_path_from_string` (src:416-429): for a string starting
with `http`, the parsed URL's path; otherwise everything before the first
`?`; then one format extension stripped. -/
def extract_clean_path_from_string (url_string : String) : String :=
  let clean_path :=
    if pyStartsWith url_string "http" then urlparse_path url_string
    else if pyContains url_string "?" then pyBefore url_string "?"
    else url_string
  remove_format_extension clean_path

/-- A JSON value, the type of Python data reaching the core already parsed
(parameter defaults, response examples). -/
inductive JValue where
  | null : JValue
  | bool : Bool → JValue
  | num : Int → JValue
  | str : String → JValue
  | arr : List JValue → JValue
  | obj : List (String × JValue) → JValue

/-- Python truthiness of a JSON value (`if example:`): `None`, `False`,
`0`, `""`, `[]` and the empty dict are falsy. -/
def jTruthy : JValue → Bool
  | .null => false
  | .bool b => b
  | .num n => n != 0
  | .str s => s ≠ ""
  | .arr xs => !xs.isEmpty
  | .obj kvs => !kvs.isEmpty

/-- One escaped character of a JSON string literal, as Python
`json.dumps` (with `ensure_ascii=True`) renders it; astral characters
would use surrogate pairs, which this model does not reproduce. -/
def jsonEscapeChar (c : Char) : String :=
  if c == '"' then "\\\""
  else if c == '\\' then "\\\\"
  else if c == '\n' then "\\n"
  else if c == '\r' then "\\r"
  else if c == '\t' then "\\t"
  else if c.val < 32 ∨ c.val > 126 then
    "\\u" ++ ⟨(Nat.toDigits 16 c.val.toNat).map id⟩
  else String.singleton c

/-- Escaped body of a JSON string literal. -/
def jsonEscape (s : String) : String :=
  s.data.foldl (fun acc c => acc ++ jsonEscapeChar c) ""

/-- Indentation prefix used by `json.dumps(..., indent=2)` at nesting
`level`. -/
def jsonPad (level : Nat) : String :=
  ⟨List.replicate (2 * level) ' '⟩

mutual

/-- Python `json.dumps(v, indent=2)` rendered at nesting `level` (the
call sites use `level = 0`). -/
def jsonDumpsLevel : JValue → Nat → String
  | .null, _ => "null"
  | .bool true, _ => "true"
  | .bool false, _ => "false"
  | .num n, _ => toString n
  | .str s, _ => "\"" ++ jsonEscape s ++ "\""
  | .arr [], _ => "[]"
  | .arr (x :: xs), level =>
    "[\n" ++ pyJoin ",\n"
      ((jsonDumpsList (x :: xs) (level + 1)).map (fun t => jsonPad (level + 1) ++ t))
      ++ "\n" ++ jsonPad level ++ "]"
  | .obj [], _ => "\x7b\x7d"
  | .obj (kv :: kvs), level =>
    "\x7b\n" ++ pyJoin ",\n"
      ((jsonDumpsObj (kv :: kvs) (level + 1)).map (fun t => jsonPad (level + 1) ++ t))
      ++ "\n" ++ jsonPad level ++ "\x7d"

/-- The rendered elements of a JSON array. -/
def jsonDumpsList : List JValue → Nat → List String
  | [], _ => []
  | x :: xs, level => jsonDumpsLevel x level :: jsonDumpsList xs level

/-- The rendered `"key": value` entries of a JSON object. -/
def jsonDumpsObj : List (String × JValue) → Nat → List String
  | [], _ => []
  | (k, v) :: kvs, level =>
    ("\"" ++ jsonEscape k ++ "\": " ++ jsonDumpsLevel v level) :: jsonDumpsObj kvs level

end

/-- Python `json.dumps(v, indent=2)`. -/
def jsonDumps (v : JValue) : String := jsonDumpsLevel v 0

/-- A `parameters` entry of an Endpoint Descriptor.  Collapsed dict reads:
`name` ← `get("name", "")`, `type` ← `get("type", "string")`, `required` ←
`get("required", False)`, `location` ← `get("location")` (compared only
against non-empty literals, so absent is collapsed to `""`),
`description` ← `get("description", "")`.  `default` stays optional
because its read sites use different defaults. -/
structure Param where
  name : String
  type : String
  required : Bool
  location : String
  description : String
  default : Option JValue

/-- A `responses` entry of an Endpoint Descriptor.  Collapsed reads:
`status` ← `get("status", 200)`, `description` ← `get("description", "")`,
`example` ← `get("example", \x7b\x7d)` (the empty dict). -/
structure ResponseExample where
  status : Int
  description : String
  «example» : JValue

/-- An Endpoint Descriptor.  Collapsed reads: `method` ←
`get("method", "GET")`, `path` ← `get("path", "")`, `controller`/`action`/
`description` ← `get(_, "")`, `parameters`/`responses` ← `get(_, [])`. -/
structure Endpoint where
  method : String
  path : String
  controller : String
  action : String
  description : String
  parameters : List Param
  responses : List ResponseExample

/-- A request header of a Collection Item.  Only `key` is ever read
(`h.get("key", "")`); `value` and `description` are write-only, collapsed
to `""` when absent. -/
structure Header where
  key : String
  value : String
  description : String

/-- A URL `query` entry of a Collection Item.  Only `key` is ever read
(`q.get("key", "")`). -/
structure QueryEntry where
  key : String
  value : JValue
  disabled : Bool
  description : String

/-- A Collection Item's URL object.  `path` and `raw` stay optional
because `extract_clean_path_from_postman_url` branches on their presence;
`query` is read only through `get("query", [])` and is collapsed. -/
structure PUrl where
  raw : Option String
  path : Option (List String)
  query : List QueryEntry

/-- A Collection Item's request body.  All fields stay optional: the code
tests the body dict's truthiness (`if not existing`), which is presence of
at least one key. -/
structure PBody where
  mode : Option String
  urlencoded : Option (List QueryEntry)
  raw : Option String
  options : Option JValue

/-- Python truthiness of a body dict: at least one key present. -/
def PBody.truthy (b : PBody) : Bool :=
  b.mode.isSome || b.urlencoded.isSome || b.raw.isSome || b.options.isSome

/-- A Collection Item's `request` object.  Collapsed reads: `method` ←
`get("method", "GET")` (so absent is written `"GET"`), `header` ←
`get("header", [])`, `url` ← `get("url", \x7b\x7d)` (empty dict = all-absent
`PUrl`), `description` ← `get("description", "")`.  `body` stays optional:
`get("body")` defaults to `None`. -/
structure PRequest where
  method : String
  header : List Header
  url : PUrl
  body : Option PBody
  description : String

/-- A Collection Item.  `request` stays optional: the Reconciler tests
`"request" in item`.  `name` is write-only, collapsed to `""` when
absent. -/
structure PItem where
  name : String
  request : Option PRequest

/-- The empty request dict, the value `existing.get("request", \x7b\x7d)`
reads for an item without a request. -/
def emptyRequest : PRequest :=
  { method := "GET", header := [], url := ⟨none, none, []⟩, body := none, description := "" }

/-- Python `str(url_obj)` fallback of `extract_clean_path_from_postman_url`,
reached only when the url dict has neither a `path` list nor a `raw` key;
modelled as the repr of the empty dict (the `query` key, collapsed in
`PUrl`, is not reproduced; no theorem evaluates this branch). -/
def url_dict_str (_ : PUrl) : String := "\x7b\x7d"

/-- `extract_clean_path_from_postman_url` (src:406-414): the clean path of
a Postman URL object — from the `path` segment list when present, else
from the `raw` string, else from the dict's string form. -/
def extract_clean_path_from_postman_url (url_obj : PUrl) : String :=
  match url_obj.path with
  | some segs => remove_format_extension ("/" ++ pyJoin "/" segs)
  | none =>
    match url_obj.raw with
    | some r => extract_clean_path_from_string r
    | none => extract_clean_path_from_string (url_dict_str url_obj)

/-- The body value a `body`-location parameter contributes to the JSON
body object (src:534-545): the declared default coerced per declared type,
with typed fallbacks (`string → ""`, `integer → 0`, `boolean → False`,
`array → []`, `object → \x7b\x7d`; unrecognized types use the string
policy). -/
def bodyParamValue (p : Param) : JValue :=
  if p.type = "string" then p.default.getD (.str "")
  else if p.type = "integer" then p.default.getD (.num 0)
  else if p.type = "boolean" then p.default.getD (.bool false)
  else if p.type = "array" then p.default.getD (.arr [])
  else if p.type = "object" then p.default.getD (.obj [])
  else p.default.getD (.str "")

/-- Successive Python-dict assignment `d[k] = v` over an association list:
an existing key keeps its position and gets the new value, a new key is
appended. -/
def dictAssign {α : Type} : List (String × α) → String → α → List (String × α)
  | [], key, v => [(key, v)]
  | (k, w) :: rest, key, v =>
    if k = key then (k, v) :: rest else (k, w) :: dictAssign rest key v

/-- Python-dict lookup `d.get(k)` over an association list built by
`dictAssign`. -/
def dictFind {α : Type} : List (String × α) → String → Option α
  | [], _ => none
  | (k, v) :: rest, key => if k = key then some v else dictFind rest key

/-- The `body_object` dict of `convert_endpoint_to_postman_item`
(src:529-545): one entry per `body`-location parameter, later duplicate
names overwriting earlier ones. -/
def buildBodyObject (body_params : List Param) : List (String × JValue) :=
  body_params.foldl (fun acc p => dictAssign acc p.name (bodyParamValue p)) []

/-- `generate_request_documentation` (src:852-935): the auto-generated
per-request documentation block, delimited by the per-request sentinel
markers. -/
def generate_request_documentation (endpoint : Endpoint) : String :=
  let method := endpoint.method
  let path := extract_clean_path_from_string endpoint.path
  let description := endpoint.description
  let controller := endpoint.controller
  let action := endpoint.action
  let parameters := endpoint.parameters
  let responses := endpoint.responses
  let doc := "<!-- AUTO-GENERATED-REQUEST START -->\n"
  let doc := doc ++ "# " ++ method ++ " " ++ path ++ "\n\n"
  let doc := if description ≠ "" then doc ++ description ++ "\n\n" else doc
  let doc := if controller ≠ "" ∧ action ≠ "" then
    doc ++ "**Controller:** `" ++ controller ++ "#" ++ action ++ "`\n\n" else doc
  let doc :=
    if parameters.isEmpty then doc
    else
      let query_params := parameters.filter (fun p => p.location = "query")
      let path_params := parameters.filter (fun p => p.location = "path")
      let header_params := parameters.filter (fun p => p.location = "header")
      let body_params := parameters.filter (fun p => p.location = "body")
      let form_params := parameters.filter (fun p => p.location = "form")
      let doc :=
        if !query_params.isEmpty then
          query_params.foldl (fun d p =>
            d ++ "- **" ++ p.name ++ "** (" ++ p.type ++ ", "
              ++ (if p.required then "Required" else "Optional") ++ "): "
              ++ p.description ++ "\n") (doc ++ "## Query Parameters\n\n") ++ "\n"
        else doc
      let doc :=
        if !path_params.isEmpty then
          path_params.foldl (fun d p =>
            d ++ "- **" ++ p.name ++ "** (" ++ p.type ++ "): " ++ p.description ++ "\n")
            (doc ++ "## Path Parameters\n\n") ++ "\n"
        else doc
      let doc :=
        if !header_params.isEmpty then
          header_params.foldl (fun d p =>
            d ++ "- **" ++ p.name ++ "**: " ++ p.description ++ "\n")
            (doc ++ "## Headers\n\n") ++ "\n"
        else doc
      let doc :=
        if !body_params.isEmpty ∨ !form_params.isEmpty then
          let target_params := if !body_params.isEmpty then body_params else form_params
          let content_type :=
            if !body_params.isEmpty then "application/json"
            else "application/x-www-form-urlencoded"
          target_params.foldl (fun d p =>
            d ++ "- **" ++ p.name ++ "** (" ++ p.type ++ ", "
              ++ (if p.required then "Required" else "Optional") ++ "): "
              ++ p.description ++ "\n")
            (doc ++ "## Request Body\n\n**Content-Type:** `" ++ content_type ++ "`\n\n")
            ++ "\n"
        else doc
      doc
  let doc :=
    if !responses.isEmpty then
      responses.foldl (fun d r =>
        let d := d ++ "### " ++ toString r.status ++ " - " ++ r.description ++ "\n\n"
        if jTruthy r.«example» then
          d ++ "```json\n" ++ jsonDumps r.«example» ++ "\n```\n\n"
        else d) (doc ++ "## Responses\n\n")
    else doc
  doc ++ "<!-- AUTO-GENERATED-REQUEST END -->"

/-- `convert_endpoint_to_postman_item` (src:441-557): the Collection Item
Codec's encode direction. -/
def convert_endpoint_to_postman_item (endpoint : Endpoint)
    (include_documentation : Bool) : PItem :=
  let method := endpoint.method
  let raw_path := endpoint.path
  let clean_path := extract_clean_path_from_string raw_path
  let description := endpoint.description
  let parameters := endpoint.parameters
  let query_params := parameters.filter (fun p => p.location = "query")
  let body_params := parameters.filter (fun p => p.location = "body")
  let header_params := parameters.filter (fun p => p.location = "header")
  let form_params := parameters.filter (fun p => p.location = "form")
  let headers : List Header :=
    header_params.map (fun p => ⟨p.name, "", p.description⟩)
  let headers := headers ++
    (if !body_params.isEmpty ∨ !form_params.isEmpty then
      if !form_params.isEmpty then
        [⟨"Content-Type", "application/x-www-form-urlencoded", ""⟩]
      else [⟨"Content-Type", "application/json", ""⟩]
    else [])
  let url_object : PUrl :=
    { raw := some clean_path
      path := some ((pySplit clean_path "/").filter (fun p => p ≠ ""))
      query := query_params.map (fun p =>
        ⟨p.name, p.default.getD (.str ""), false, p.description⟩) }
  let req_description :=
    if include_documentation then generate_request_documentation endpoint
    else if description ≠ "" then description
    else ""
  let body : Option PBody :=
    if !body_params.isEmpty ∨ !form_params.isEmpty then
      if !form_params.isEmpty then
        some { mode := some "urlencoded"
               urlencoded := some (form_params.map (fun p =>
                 ⟨p.name, p.default.getD (.str ""), false, p.description⟩))
               raw := none, options := none }
      else
        some { mode := some "raw"
               urlencoded := none
               raw := some (jsonDumps (.obj (buildBodyObject body_params)))
               options := some (.obj [("raw", .obj [("language", .str "json")])]) }
    else none
  { name := method ++ " " ++ clean_path
    request := some
      { method := method
        header := headers
        url := url_object
        body := body
        description := req_description } }

/-- `headers_different` (src:664-672): counts differ, or the sets of
header keys differ. -/
def headers_different (existing new : List Header) : Bool :=
  if existing.length ≠ new.length then true
  else (existing.map Header.key).toFinset ≠ (new.map Header.key).toFinset

/-- `url_different` (src:674-685): query-entry counts differ, or the sets
of query keys differ. -/
def url_different (existing new : PUrl) : Bool :=
  if existing.query.length ≠ new.query.length then true
  else (existing.query.map QueryEntry.key).toFinset ≠ (new.query.map QueryEntry.key).toFinset

/-- Python truthiness of `request.get("body")`: `None` (absent) and the
empty body dict are falsy. -/
def bodyTruthy : Option PBody → Bool
  | none => false
  | some b => b.truthy

/-- `body_different` (src:687-697): both bodies falsy — same; exactly one
falsy — different; both truthy — different iff the `mode` fields
(`get("mode", "")`) differ. -/
def body_different (existing new : Option PBody) : Bool :=
  if !bodyTruthy existing ∧ !bodyTruthy new then false
  else if !bodyTruthy existing ∨ !bodyTruthy new then true
  else ((existing.getD ⟨none, none, none, none⟩).mode.getD "")
    ≠ ((new.getD ⟨none, none, none, none⟩).mode.getD "")

/-- The structured diff of `compare_postman_items`: which axes changed,
with the detail each records (header counts; description lengths). -/
structure CompareResult where
  has_changes : Bool
  headersDetail : Option (Nat × Nat)
  urlChanged : Bool
  bodyChanged : Bool
  descriptionDetail : Option (Nat × Nat)

/-- `compare_postman_items` (src:605-662): the Change Detector.
`has_changes` accumulates the four axes by successive `True` assignments,
i.e. a logical OR. -/
def compare_postman_items (existing new : PItem) : CompareResult :=
  let existing_request := existing.request.getD emptyRequest
  let new_request := new.request.getD emptyRequest
  let hd := headers_different existing_request.header new_request.header
  let ud := url_different existing_request.url new_request.url
  let bd := body_different existing_request.body new_request.body
  let dd := existing_request.description ≠ new_request.description
  { has_changes := hd || ud || bd || dd
    headersDetail :=
      if hd then some (existing_request.header.length, new_request.header.length) else none
    urlChanged := ud
    bodyChanged := bd
    descriptionDetail :=
      if dd then some (existing_request.description.length, new_request.description.length)
      else none }

/-- `items_are_different` (src:699-702). -/
def items_are_different (existing new : PItem) : Bool :=
  (compare_postman_items existing new).has_changes

/-- The sentinel start marker of the collection-level description. -/
def collStart : String := "<!-- AUTO-GENERATED START -->"

/-- The sentinel end marker of the collection-level description. -/
def collEnd : String := "<!-- AUTO-GENERATED END -->"

/-- The sentinel start marker of a per-request description. -/
def reqStart : String := "<!-- AUTO-GENERATED-REQUEST START -->"

/-- The sentinel end marker of a per-request description. -/
def reqEnd : String := "<!-- AUTO-GENERATED-REQUEST END -->"

/-- The marker-delimited rebuild step shared by both merge functions
(src:729-746 and src:949-966): `manual_before` is the stripped text before
the first start marker, `manual_after` the stripped text after the first
end marker of the whole existing text; the result is
`manual_before ⬝ "\n\n"` (when non-empty) + fresh text + `"\n\n" ⬝
manual_after` (when non-empty). -/
def markerRebuild (existing new startM endM : String) : String :=
  let manual_before := pyStrip (pyBefore existing startM)
  let manual_after :=
    if pyContains existing endM then pyStrip (pyAfter existing endM) else ""
  (if manual_before ≠ "" then manual_before ++ "\n\n" else "")
    ++ new
    ++ (if manual_after ≠ "" then "\n\n" ++ manual_after else "")

/-- `merge_descriptions` (src:717-756): the Content Merge Engine for the
collection-level description, with its own sentinel pair and legacy
fingerprints. -/
def merge_descriptions (existing new : String) : String :=
  if existing = "" then new
  else if new = "" then existing
  else if existing = new then existing
  else if pyContains existing collStart ∧ pyContains existing collEnd then
    markerRebuild existing new collStart collEnd
  else if pyStartsWith existing "# API Collection Documentation"
      ∨ pyContains existing "This collection contains"
      ∨ pyContains existing "Auto-generated on" then
    new
  else existing ++ "\n\n---\n\n" ++ new

/-- `merge_request_descriptions` (src:937-979): the Content Merge Engine
for a per-request description, with the request sentinel pair and the
request legacy fingerprints. -/
def merge_request_descriptions (existing new : String) : String :=
  if existing = "" then new
  else if new = "" then existing
  else if existing = new then existing
  else if pyContains existing reqStart ∧ pyContains existing reqEnd then
    markerRebuild existing new reqStart reqEnd
  else if pyStartsWith existing "# GET " ∨ pyStartsWith existing "# POST "
      ∨ pyStartsWith existing "# PUT " ∨ pyStartsWith existing "# DELETE "
      ∨ pyContains existing "## Query Parameters"
      ∨ pyContains existing "## Request Body"
      ∨ pyContains existing "## Responses"
      ∨ pyContains existing "**Controller:**" then
    new
  else existing ++ "\n\n---\n\n" ++ new

/-- `merge_postman_items_with_preservation` (src:704-715): the fresh item
with its request description replaced by the merged description when
either description is non-empty.  (When the fresh item has no `request`
key and the condition holds, the Python code would raise a `KeyError`;
that branch is unreachable for codec-produced fresh items and is modelled
as the identity.) -/
def merge_postman_items_with_preservation (existing new : PItem) : PItem :=
  let existing_desc := (existing.request.getD emptyRequest).description
  let new_desc := (new.request.getD emptyRequest).description
  if existing_desc ≠ "" ∨ new_desc ≠ "" then
    match new.request with
    | some r =>
      { new with
        request := some { r with
          description := merge_request_descriptions existing_desc new_desc } }
    | none => new
  else new

/-- The Endpoint Key of a Collection Item, as the Reconciler's lookup
builds it (src:211-217): `"METHOD:clean_path"` with the method defaulting
to `GET`. -/
def itemKey (req : PRequest) : String :=
  req.method ++ ":" ++ extract_clean_path_from_postman_url req.url

/-- The Endpoint Key of an Endpoint Descriptor (src:225-228). -/
def endpointKey (endpoint : Endpoint) : String :=
  endpoint.method ++ ":" ++ extract_clean_path_from_string endpoint.path

/-- The report rendering `"METHOD clean_path"` of a descriptor's key, the
strings collected in the `new`/`updated`/`unchanged` lists
(src:245-251). -/
def endpointReportName (endpoint : Endpoint) : String :=
  endpoint.method ++ " " ++ extract_clean_path_from_string endpoint.path

/-- The Reconciler's `existing_lookup` (src:209-217): a key→item mapping
over the existing items, skipping items without a `request` key, later
duplicate keys overwriting earlier ones. -/
def buildLookup (existing_items : List PItem) : List (String × PItem) :=
  existing_items.foldl (fun acc item =>
    match item.request with
    | some req => dictAssign acc (itemKey req) item
    | none => acc) []

/-- The Reconciler's loop state: the key→item mapping and the three report
lists. -/
structure StepState where
  lookup : List (String × PItem)
  news : List String
  upds : List String
  unchs : List String

/-- One iteration of the Reconciler's endpoint loop (src:224-251): encode
the descriptor; on a key hit, merge (when `preserve_existing_docs`) and
overwrite the mapping only when the Change Detector fires, recording
`updated`, else record `unchanged` and leave the mapping entry as it was;
on a miss, insert and record `new`. -/
def smart_step (include_documentation preserve_existing_docs : Bool)
    (st : StepState) (endpoint : Endpoint) : StepState :=
  let key := endpointKey endpoint
  let name := endpointReportName endpoint
  let new_item := convert_endpoint_to_postman_item endpoint include_documentation
  match dictFind st.lookup key with
  | some existing_item =>
    let merged_item :=
      if preserve_existing_docs then
        merge_postman_items_with_preservation existing_item new_item
      else new_item
    if items_are_different existing_item merged_item then
      { st with lookup := dictAssign st.lookup key merged_item
                upds := st.upds ++ [name] }
    else
      { st with unchs := st.unchs ++ [name] }
  | none =>
    { st with lookup := dictAssign st.lookup key new_item
              news := st.news ++ [name] }

/-- The Reconciler's run over one batch: the change report and the final
item collection. -/
structure SyncResult where
  news : List String
  upds : List String
  unchs : List String
  items : List PItem

/-- The pure reconciliation core of `smart_update_postman_collection`
(src:209-254): build the lookup of existing items, fold the endpoint loop
over the descriptors in order, and return the report lists together with
the mapping's values as the new item collection.  (Credential handling,
the collection-level description merge of src:199-207 — which touches only
`collection.info`, not the items — and the network write are the
collaborator layer, outside the core.) -/
def smart_update_core (existing_items : List PItem) (endpoints : List Endpoint)
    (include_documentation preserve_existing_docs : Bool) : SyncResult :=
  let st := endpoints.foldl (smart_step include_documentation preserve_existing_docs)
    ⟨buildLookup existing_items, [], [], []⟩
  ⟨st.news, st.upds, st.unchs, st.lookup.map Prod.snd⟩

/-- The parameter description shown in the detailed renderer's tables:
`param.get("description", "No description provided")`.  `Param.description`
collapses an absent key to `""`, so the renderer's distinct default is
recovered from the collapsed value. -/
def paramDescOrDefault (p : Param) : String :=
  if p.description = "" then "No description provided" else p.description

/-- One row of a detailed-renderer parameter table (src:1034-1039 and its
three clones). -/
def paramTableRow (p : Param) : String :=
  "| `" ++ p.name ++ "` | `" ++ p.type ++ "` | "
    ++ (if p.required then "✅ Yes" else "❌ No") ++ " | "
    ++ paramDescOrDefault p ++ " |\n"

/-- The header of a detailed-renderer parameter table. -/
def paramTableHeader : String :=
  "| Name | Type | Required | Description |\n|------|------|----------|-------------|\n"

/-- The status emoji of a response block (src:1102-1110). -/
def statusEmoji (status : Int) : String :=
  if 200 ≤ status ∧ status < 300 then "✅"
  else if 400 ≤ status ∧ status < 500 then "❌"
  else if 500 ≤ status ∧ status < 600 then "💥"
  else "ℹ️"

/-- The body of one endpoint section of `generate_detailed_markdown`
(src:1001-1124), without the inter-endpoint separator. -/
def detailedEndpointSection (i : Nat) (endpoint : Endpoint) : String :=
  let method := endpoint.method
  let clean_path := extract_clean_path_from_string endpoint.path
  let description := endpoint.description
  let controller := endpoint.controller
  let action := endpoint.action
  let doc := "## " ++ toString i ++ ". " ++ method ++ " " ++ clean_path ++ "\n\n"
  let doc := if description ≠ "" then
    doc ++ "**Description:** " ++ description ++ "\n\n" else doc
  let doc := if controller ≠ "" ∧ action ≠ "" then
    doc ++ "**Controller:** `" ++ controller ++ "#" ++ action ++ "`\n\n" else doc
  let parameters := endpoint.parameters
  let doc :=
    if !parameters.isEmpty then
      let query_params := parameters.filter (fun p => p.location = "query")
      let path_params := parameters.filter (fun p => p.location = "path")
      let header_params := parameters.filter (fun p => p.location = "header")
      let body_params := parameters.filter (fun p => p.location = "body")
      let form_params := parameters.filter (fun p => p.location = "form")
      let doc := doc ++ "### Parameters\n\n"
      let doc :=
        if !query_params.isEmpty then
          query_params.foldl (fun d p => d ++ paramTableRow p)
            (doc ++ "#### Query Parameters\n\n" ++ paramTableHeader) ++ "\n"
        else doc
      let doc :=
        if !path_params.isEmpty then
          path_params.foldl (fun d p => d ++ paramTableRow p)
            (doc ++ "#### Path Parameters\n\n" ++ paramTableHeader) ++ "\n"
        else doc
      let doc :=
        if !header_params.isEmpty then
          header_params.foldl (fun d p => d ++ paramTableRow p)
            (doc ++ "#### Header Parameters\n\n" ++ paramTableHeader) ++ "\n"
        else doc
      let doc :=
        if !body_params.isEmpty ∨ !form_params.isEmpty then
          let doc := doc ++ "#### Request Body\n\n"
          if !body_params.isEmpty then
            body_params.foldl (fun d p => d ++ paramTableRow p)
              (doc ++ "**Content-Type:** `application/json`\n\n" ++ paramTableHeader) ++ "\n"
          else
            form_params.foldl (fun d p => d ++ paramTableRow p)
              (doc ++ "**Content-Type:** `application/x-www-form-urlencoded`\n\n"
                ++ paramTableHeader) ++ "\n"
        else doc
      doc
    else doc ++ "### Parameters\n\n*No parameters required.*\n\n"
  let responses := endpoint.responses
  if !responses.isEmpty then
    responses.foldl (fun d r =>
      let d := d ++ "#### " ++ statusEmoji r.status ++ " " ++ toString r.status
        ++ " - " ++ r.description ++ "\n\n"
      if jTruthy r.«example» then
        d ++ "**Example Response:**\n\n```json\n" ++ jsonDumps r.«example» ++ "\n```\n\n"
      else d) (doc ++ "### Responses\n\n")
  else doc ++ "### Responses\n\n*No response examples available.*\n\n"

/-- `generate_detailed_markdown` (src:995-1130), with `datetime.now()` —
the renderer's only impurity — passed in as `now`. -/
def generate_detailed_markdown (endpoints : List Endpoint) (now : String) : String :=
  let doc := "# API Documentation\n\n"
    ++ "This documentation was auto-generated from Rails controller analysis.\n\n---\n\n"
  let n := endpoints.length
  let doc := (List.range n).foldl (fun d i =>
    let d := d ++ detailedEndpointSection (i + 1) (endpoints.getD i ⟨"GET", "", "", "", "", [], []⟩)
    if i + 1 < n then d ++ "---\n\n" else d) doc
  doc ++ "\n---\n\n*Generated on " ++ now ++ "*\n"

/-- One line of the compact renderer (src:1152-1164). -/
def compactEndpointLine (endpoint : Endpoint) : String :=
  let clean_path := extract_clean_path_from_string endpoint.path
  let line := "- **" ++ clean_path ++ "**"
  let line := if endpoint.description ≠ "" then
    line ++ " - " ++ endpoint.description else line
  let line := if endpoint.controller ≠ "" ∧ endpoint.action ≠ "" then
    line ++ " (`" ++ endpoint.controller ++ "#" ++ endpoint.action ++ "`)" else line
  line ++ "\n"

/-- `generate_compact_markdown` (src:1132-1170): endpoints grouped by HTTP
method, walked in the fixed method order; endpoints with a method outside
the five known ones are silently dropped by the Python loop. -/
def generate_compact_markdown (endpoints : List Endpoint) (now : String) : String :=
  let doc := "# API Endpoints\n\nQuick reference for all available API endpoints.\n\n"
  let doc := ["GET", "POST", "PUT", "PATCH", "DELETE"].foldl (fun d m =>
    let group := endpoints.filter (fun e => e.method = m)
    if group.isEmpty then d
    else group.foldl (fun d2 e => d2 ++ compactEndpointLine e)
      (d ++ "## " ++ m ++ " Endpoints\n\n") ++ "\n") doc
  doc ++ "*Generated on " ++ now ++ "*\n"

/-- `generate_markdown_docs` (src:981-993): the empty-endpoints
placeholder, then the style dispatch — any style other than `"compact"`
(including unrecognized ones) renders the detailed style. -/
def generate_markdown_docs (endpoints_data : List Endpoint) (style : String)
    (now : String) : String :=
  if endpoints_data.isEmpty then
    "# API Documentation\n\nNo endpoints found in the provided data.\n"
  else if style = "detailed" then generate_detailed_markdown endpoints_data now
  else if style = "compact" then generate_compact_markdown endpoints_data now
  else generate_detailed_markdown endpoints_data now

/-- The JSON form of a parameter, for the `"json"` echo branch (collapsed
fields are emitted with their read-defaults). -/
def paramToJValue (p : Param) : JValue :=
  .obj ([("name", .str p.name), ("type", .str p.type),
    ("required", .bool p.required), ("location", .str p.location),
    ("description", .str p.description)]
    ++ (match p.default with | some v => [("default", v)] | none => []))

/-- The JSON form of a response example. -/
def responseToJValue (r : ResponseExample) : JValue :=
  .obj [("status", .num r.status), ("description", .str r.description),
    ("example", r.«example»)]

/-- The JSON form of an Endpoint Descriptor. -/
def endpointToJValue (e : Endpoint) : JValue :=
  .obj [("method", .str e.method), ("path", .str e.path),
    ("controller", .str e.controller), ("action", .str e.action),
    ("description", .str e.description),
    ("parameters", .arr (e.parameters.map paramToJValue)),
    ("responses", .arr (e.responses.map responseToJValue))]

/-- The JSON form of the whole endpoints payload. -/
def endpointsDataToJValue (endpoints : List Endpoint) : JValue :=
  .obj [("endpoints", .arr (endpoints.map endpointToJValue))]

/-- The post-parse core of `generate_api_documentation` (src:298-317):
dispatch on `format_type`, echo JSON, or report the unsupported format.
`now` stands for `datetime.now()` inside the markdown renderers. -/
def generate_api_documentation (endpoints_data : List Endpoint)
    (format_type template_style now : String) : String :=
  if format_type = "markdown" then
    generate_markdown_docs endpoints_data template_style now
  else if format_type = "json" then
    jsonDumps (endpointsDataToJValue endpoints_data)
  else
    "Error: Unsupported format_type '" ++ format_type ++ "'. Use 'markdown' or 'json'."

/-- The Endpoint Key of a Collection Item as a (method, path) pair, the
spec's `decode-key`: the request method (already defaulted to `GET` for an
absent key) and the Path Normalizer applied to the URL object. -/
def decode_key (item : PItem) : String × String :=
  ((item.request.getD emptyRequest).method,
   extract_clean_path_from_postman_url (item.request.getD emptyRequest).url)

/-- The key under which `buildLookup` files an item (meaningful when the
item has a `request`; an absent request reads the empty dict). -/
def itemKeyOf (item : PItem) : String :=
  itemKey (item.request.getD emptyRequest)

/-- The reconciler's whole loop state after processing a batch. -/
def finalState (existing_items : List PItem) (endpoints : List Endpoint)
    (include_documentation preserve_existing_docs : Bool) : StepState :=
  endpoints.foldl (smart_step include_documentation preserve_existing_docs)
    ⟨buildLookup existing_items, [], [], []⟩

/-- Concrete existing item used by several concrete scenarios: a
hand-named `GET /widgets` item with no headers, query, body or
description. -/
def widgetsItem : PItem :=
  { name := "Old Name"
    request := some
      { method := "GET"
        header := []
        url := ⟨some "/widgets", some ["widgets"], []⟩
        body := none
        description := "" } }

/-- Concrete descriptor used by several concrete scenarios:
`GET /widgets`, no parameters, no responses. -/
def widgetsEndpoint : Endpoint := ⟨"GET", "/widgets", "", "", "", [], []⟩

/-- A bare existing item without a `request` key (a Postman folder). -/
def folderItem : PItem := { name := "My folder", request := none }

/-- A descriptor whose path lacks the leading slash, so that its key does
not survive the encode/decode round trip. -/
def usersEndpoint : Endpoint := ⟨"GET", "users", "", "", "", [], []⟩

end RailsSync

namespace RailsSync

/-! ### Supporting lemmas -/

theorem smart_update_core_eq (existing_items : List PItem) (endpoints : List Endpoint)
    (incl pres : Bool) :
    smart_update_core existing_items endpoints incl pres =
      ⟨(finalState existing_items endpoints incl pres).news,
       (finalState existing_items endpoints incl pres).upds,
       (finalState existing_items endpoints incl pres).unchs,
       (finalState existing_items endpoints incl pres).lookup.map Prod.snd⟩ := rfl

theorem dictFind_assign_ne {α : Type} (l : List (String × α)) (k k' : String) (v : α)
    (h : k' ≠ k) : dictFind (dictAssign l k v) k' = dictFind l k' := by
  induction l with
  | nil =>
    simp only [dictAssign, dictFind]
    rw [if_neg (Ne.symm h)]
  | cons p rest ih =>
    obtain ⟨pk, pv⟩ := p
    by_cases hpk : pk = k
    · subst hpk
      simp [dictAssign, dictFind, if_neg (Ne.symm h)]
    · simp [dictAssign, dictFind, if_neg hpk]
      by_cases hpk' : pk = k'
      · simp [if_pos hpk']
      · simp [if_neg hpk', ih]

theorem keys_assign_of_find_some {α : Type} (l : List (String × α)) (k : String) (v w : α)
    (h : dictFind l k = some w) :
    (dictAssign l k v).map Prod.fst = l.map Prod.fst := by
  induction l with
  | nil => simp [dictFind] at h
  | cons p rest ih =>
    obtain ⟨pk, pv⟩ := p
    by_cases hpk : pk = k
    · simp [dictAssign, if_pos hpk]
    · simp [dictFind, if_neg hpk] at h
      simp [dictAssign, if_neg hpk, ih h]

theorem assign_of_find_none {α : Type} (l : List (String × α)) (k : String) (v : α)
    (h : dictFind l k = none) : dictAssign l k v = l ++ [(k, v)] := by
  induction l with
  | nil => simp [dictAssign]
  | cons p rest ih =>
    obtain ⟨pk, pv⟩ := p
    by_cases hpk : pk = k
    · simp [dictFind, if_pos hpk] at h
    · simp [dictFind, if_neg hpk] at h
      simp [dictAssign, if_neg hpk, ih h]

theorem dictFind_eq_none_iff {α : Type} (l : List (String × α)) (k : String) :
    dictFind l k = none ↔ k ∉ l.map Prod.fst := by
  induction l with
  | nil => simp [dictFind]
  | cons p rest ih =>
    obtain ⟨pk, pv⟩ := p
    by_cases hpk : pk = k
    · subst hpk
      simp [dictFind]
    · simp [dictFind, if_neg hpk, ih, Ne.symm hpk]

theorem mem_of_find_some {α : Type} (l : List (String × α)) (k : String) (v : α)
    (h : dictFind l k = some v) : k ∈ l.map Prod.fst ∧ v ∈ l.map Prod.snd := by
  induction l with
  | nil => simp [dictFind] at h
  | cons p rest ih =>
    obtain ⟨pk, pv⟩ := p
    by_cases hpk : pk = k
    · subst hpk
      simp [dictFind] at h
      simp [h]
    · simp [dictFind, if_neg hpk] at h
      obtain ⟨h1, h2⟩ := ih h
      exact ⟨by simp [h1], by simp [h2]⟩

theorem dictFind_of_mem_nodup {α : Type} (l : List (String × α)) (k : String) (v : α)
    (hmem : (k, v) ∈ l) (hnd : (l.map Prod.fst).Nodup) : dictFind l k = some v := by
  induction l with
  | nil => simp at hmem
  | cons p rest ih =>
    obtain ⟨pk, pv⟩ := p
    simp at hmem
    rcases hmem with ⟨hk, hv⟩ | hmem
    · subst hk; subst hv
      simp [dictFind]
    · rw [List.map_cons, List.nodup_cons] at hnd
      have hpk : pk ≠ k := by
        intro he
        subst he
        exact hnd.1 (List.mem_map_of_mem (a := (pk, v)) Prod.fst hmem)
      simp [dictFind, if_neg hpk]
      exact ih hmem hnd.2

theorem merge_request_descriptions_self (s : String) :
    merge_request_descriptions s s = s := by
  unfold merge_request_descriptions
  by_cases h : s = ""
  · simp [h]
  · simp [h]

theorem merge_postman_items_with_preservation_self (it : PItem) :
    merge_postman_items_with_preservation it it = it := by
  obtain ⟨nm, req⟩ := it
  unfold merge_postman_items_with_preservation
  cases req with
  | none => simp [emptyRequest]
  | some r =>
    simp only [Option.getD_some]
    by_cases h : r.description = ""
    · simp [h]
    · simp only [if_pos (Or.inl h), merge_request_descriptions_self]

theorem headers_different_self (l : List Header) : headers_different l l = false := by
  simp [headers_different]

theorem url_different_self (u : PUrl) : url_different u u = false := by
  simp [url_different]

theorem body_different_self (b : Option PBody) : body_different b b = false := by
  unfold body_different
  cases hb : bodyTruthy b <;> simp

theorem items_are_different_self (it : PItem) : items_are_different it it = false := by
  simp [items_are_different, compare_postman_items, headers_different_self,
    url_different_self, body_different_self]

theorem pyContains_empty_left (sub : String) (h : sub ≠ "") :
    pyContains "" sub = false := by
  have hd : sub.data ≠ [] := fun hh => h (by
    cases sub
    simp at hh
    simp [hh])
  simp [pyContains, chSplitFirst, List.isEmpty_iff, hd]

/-! ### Claim theorems -/

/-- C5 (corrected): when the existing text contains both per-request (or
both collection-level) sentinel markers, the fresh text is non-empty and
the two texts differ, the merge rebuilds `stripped-before ⬝ blank line ⬝
fresh ⬝ blank line ⬝ stripped-after`, where `before` is the text before the
first start marker and `after` the text after the first end marker of the
whole existing text; the two concrete examples of the claim hold.  (The
claim as stated omits the `existing ≠ fresh` guard — identical texts are
returned unchanged before the marker split — hence the amendment.) -/
theorem C5_amended :
    (∀ existing new : String, pyContains existing reqStart = true →
      pyContains existing reqEnd = true → new ≠ "" → existing ≠ new →
      merge_request_descriptions existing new =
        markerRebuild existing new reqStart reqEnd)
    ∧ (∀ existing new : String, pyContains existing collStart = true →
      pyContains existing collEnd = true → new ≠ "" → existing ≠ new →
      merge_descriptions existing new = markerRebuild existing new collStart collEnd)
    ∧ merge_request_descriptions (reqStart ++ "\nOLDGEN\n" ++ reqEnd) "NEWGEN" = "NEWGEN"
    ∧ merge_request_descriptions ("Manual note.\n\n" ++ reqStart ++ "\nOLDGEN\n" ++ reqEnd)
        "NEWGEN" = "Manual note.\n\nNEWGEN" := by
  refine ⟨?_, ?_, by decide, by decide⟩
  · intro existing new hs he hn hne
    have h0 : existing ≠ "" := by
      intro hx
      rw [hx, pyContains_empty_left reqStart (by decide)] at hs
      cases hs
    unfold merge_request_descriptions
    rw [if_neg h0, if_neg hn, if_neg hne, if_pos ⟨hs, he⟩]
  · intro existing new hs he hn hne
    have h0 : existing ≠ "" := by
      intro hx
      rw [hx, pyContains_empty_left collStart (by decide)] at hs
      cases hs
    unfold merge_descriptions
    rw [if_neg h0, if_neg hn, if_neg hne, if_pos ⟨hs, he⟩]

/-- C5 witness: the marker rebuild applied at a concrete input with manual
text on both sides of the generated block. -/
theorem C5_witness :
    merge_request_descriptions
        ("Before note.\n\n" ++ reqStart ++ "\nG\n" ++ reqEnd ++ "\nAfter note.") "NEW" =
      markerRebuild ("Before note.\n\n" ++ reqStart ++ "\nG\n" ++ reqEnd ++ "\nAfter note.")
        "NEW" reqStart reqEnd :=
  C5_amended.1 _ _ (by decide) (by decide) (by decide) (by decide)

/-- C5 counterexample: for an existing text that contains both markers
with a non-empty manual prefix and a fresh text equal to it, the code
returns the existing text unchanged, not the rebuild the claim
describes. -/
theorem C5_counterexample :
    merge_request_descriptions ("Manual note.\n\n" ++ reqStart ++ "\nOLDGEN\n" ++ reqEnd)
        ("Manual note.\n\n" ++ reqStart ++ "\nOLDGEN\n" ++ reqEnd) ≠
      markerRebuild ("Manual note.\n\n" ++ reqStart ++ "\nOLDGEN\n" ++ reqEnd)
        ("Manual note.\n\n" ++ reqStart ++ "\nOLDGEN\n" ++ reqEnd) reqStart reqEnd := by
  decide

/-- C6 (confirmed): a non-empty existing text containing no sentinel
markers and matching no legacy fingerprint, merged with a non-empty,
different fresh text, becomes `existing ⬝ "\n\n---\n\n" ⬝ fresh` — for
both the per-request and the collection-level merge, so hand-authored
content is never discarded. -/
theorem C6_confirmed :
    (∀ existing new : String, existing ≠ "" → new ≠ "" → existing ≠ new →
      pyContains existing reqStart = false → pyContains existing reqEnd = false →
      pyStartsWith existing "# GET " = false → pyStartsWith existing "# POST " = false →
      pyStartsWith existing "# PUT " = false → pyStartsWith existing "# DELETE " = false →
      pyContains existing "## Query Parameters" = false →
      pyContains existing "## Request Body" = false →
      pyContains existing "## Responses" = false →
      pyContains existing "**Controller:**" = false →
      merge_request_descriptions existing new = existing ++ "\n\n---\n\n" ++ new)
    ∧ (∀ existing new : String, existing ≠ "" → new ≠ "" → existing ≠ new →
      pyContains existing collStart = false → pyContains existing collEnd = false →
      pyStartsWith existing "# API Collection Documentation" = false →
      pyContains existing "This collection contains" = false →
      pyContains existing "Auto-generated on" = false →
      merge_descriptions existing new = existing ++ "\n\n---\n\n" ++ new)
    ∧ merge_request_descriptions "Do not touch."
        (generate_request_documentation widgetsEndpoint) =
      "Do not touch.\n\n---\n\n" ++ generate_request_documentation widgetsEndpoint := by
  refine ⟨?_, ?_, by decide⟩
  · intro existing new h0 hn hne hm1 hm2 hf1 hf2 hf3 hf4 hf5 hf6 hf7 hf8
    unfold merge_request_descriptions
    rw [if_neg h0, if_neg hn, if_neg hne,
      if_neg (by simp [hm1, hm2]), if_neg (by simp [hf1, hf2, hf3, hf4, hf5, hf6, hf7, hf8])]
  · intro existing new h0 hn hne hm1 hm2 hf1 hf2 hf3
    unfold merge_descriptions
    rw [if_neg h0, if_neg hn, if_neg hne,
      if_neg (by simp [hm1, hm2]), if_neg (by simp [hf1, hf2, hf3])]

/-- C6 witness: the hand-authored branch at the claim's own concrete
input. -/
theorem C6_witness :
    merge_request_descriptions "Do not touch." "FRESH" = "Do not touch.\n\n---\n\nFRESH" :=
  C6_confirmed.1 "Do not touch." "FRESH" (by decide) (by decide) (by decide) (by decide)
    (by decide) (by decide) (by decide) (by decide) (by decide) (by decide) (by decide)
    (by decide) (by decide)

/-- C7 (confirmed): the Change Detector's `has_changes` is the logical OR
of the four independently evaluated axis predicates (headers, URL query,
body, description), no axis suppressing another; and the body axis follows
the presence table of the claim, where a body is "present" exactly when the
Python dict is truthy (`if not existing` — an absent key and an empty body
dict both count as absent): both absent — same; exactly one present —
different; both present — different iff the `mode` fields differ. -/
theorem C7_confirmed :
    (∀ existing new : PItem,
      (compare_postman_items existing new).has_changes =
        (headers_different (existing.request.getD emptyRequest).header
            (new.request.getD emptyRequest).header
          || url_different (existing.request.getD emptyRequest).url
            (new.request.getD emptyRequest).url
          || body_different (existing.request.getD emptyRequest).body
            (new.request.getD emptyRequest).body
          || decide ((existing.request.getD emptyRequest).description ≠
              (new.request.getD emptyRequest).description)))
    ∧ (∀ eb nb : Option PBody, bodyTruthy eb = false → bodyTruthy nb = false →
        body_different eb nb = false)
    ∧ (∀ eb nb : Option PBody, bodyTruthy eb ≠ bodyTruthy nb → body_different eb nb = true)
    ∧ (∀ eb nb : Option PBody, bodyTruthy eb = true → bodyTruthy nb = true →
        body_different eb nb =
          decide ((eb.getD ⟨none, none, none, none⟩).mode.getD "" ≠
            (nb.getD ⟨none, none, none, none⟩).mode.getD "")) := by
  refine ⟨fun existing new => rfl, ?_, ?_, ?_⟩
  · intro eb nb he hn
    simp [body_different, he, hn]
  · intro eb nb hne
    cases he : bodyTruthy eb <;> cases hn : bodyTruthy nb <;>
      simp [he, hn] at hne ⊢ <;> simp [body_different, he, hn]
  · intro eb nb he hn
    simp [body_different, he, hn]

/-- C7 witness: two present bodies with differing modes are flagged as
different. -/
theorem C7_witness :
    body_different (some ⟨some "raw", none, none, none⟩)
      (some ⟨some "urlencoded", none, none, none⟩) = true :=
  (C7_confirmed.2.2.2 (some ⟨some "raw", none, none, none⟩)
    (some ⟨some "urlencoded", none, none, none⟩) (by decide) (by decide)).trans (by decide)

/-- C10 (confirmed): preservation merging is frame-limited to the request
description — the merged item is the fresh item with only the description
replaced (and only when at least one of the two descriptions is
non-empty), and no field of the existing item other than its description
influences the result. -/
theorem C10_confirmed :
    (∀ existing new : PItem, ∀ nr : PRequest, new.request = some nr →
      merge_postman_items_with_preservation existing new =
        (if (existing.request.getD emptyRequest).description ≠ "" ∨ nr.description ≠ "" then
          { new with request := some { nr with
              description := merge_request_descriptions
                (existing.request.getD emptyRequest).description nr.description } }
        else new))
    ∧ (∀ e1 e2 n : PItem,
        (e1.request.getD emptyRequest).description =
          (e2.request.getD emptyRequest).description →
        merge_postman_items_with_preservation e1 n =
          merge_postman_items_with_preservation e2 n) := by
  constructor
  · intro existing new nr h
    simp only [merge_postman_items_with_preservation, h, Option.getD_some]
  · intro e1 e2 n h
    simp only [merge_postman_items_with_preservation, h]

/-- C10 witness: two existing items with equal descriptions but different
names and bodies produce the same merged item. -/
theorem C10_witness :
    merge_postman_items_with_preservation
        ⟨"first", some ⟨"GET", [], ⟨none, none, []⟩, none, "OLD"⟩⟩
        ⟨"fresh", some ⟨"POST", [], ⟨some "/x", none, []⟩, none, "NEW"⟩⟩ =
      merge_postman_items_with_preservation
        ⟨"second", some ⟨"PUT", [⟨"X", "", ""⟩], ⟨none, none, []⟩,
          some ⟨some "raw", none, none, none⟩, "OLD"⟩⟩
        ⟨"fresh", some ⟨"POST", [], ⟨some "/x", none, []⟩, none, "NEW"⟩⟩ :=
  C10_confirmed.2 _ _ _ (by decide)

/-- C9 (corrected): an unrecognized `format_type` does abort with the
UnsupportedOption error text and produces no document; but an unrecognized
`template_style` does not abort — markdown rendering proceeds, falling back
to the detailed style (src:992-993), so the claim's "or an unrecognized
template style" half fails. -/
theorem C9_amended (endpoints_data : List Endpoint)
    (format_type template_style now : String)
    (h1 : format_type ≠ "markdown") (h2 : format_type ≠ "json") :
    generate_api_documentation endpoints_data format_type template_style now =
      "Error: Unsupported format_type '" ++ format_type ++ "'. Use 'markdown' or 'json'." := by
  unfold generate_api_documentation
  rw [if_neg h1, if_neg h2]

/-- C9 witness: the `"yaml"` format aborts with the error text. -/
theorem C9_witness :
    generate_api_documentation [widgetsEndpoint] "yaml" "detailed" "TS" =
      "Error: Unsupported format_type 'yaml'. Use 'markdown' or 'json'." :=
  C9_amended [widgetsEndpoint] "yaml" "detailed" "TS" (by decide) (by decide)

/-- C9 counterexample: with the unrecognized template style `"bogus"` the
run does not abort — it returns the detailed markdown document, which does
not start with `"Error"`. -/
theorem C9_counterexample :
    generate_api_documentation [widgetsEndpoint] "markdown" "bogus" "TS" =
      generate_detailed_markdown [widgetsEndpoint] "TS"
    ∧ pyStartsWith (generate_api_documentation [widgetsEndpoint] "markdown" "bogus" "TS")
        "Error" = false :=
  ⟨rfl, by decide⟩

/-- C4 (corrected): decoding the key of an encoded descriptor yields
`(method, normalize(path))` exactly when the normalized path survives the
URL segment-list round trip — rejoining its non-empty `/`-segments behind a
leading slash and re-stripping a format extension must reproduce it.
Without that condition the round trip fails (see the counterexample), so
the claim is amended with it. -/
theorem C4_amended (d : Endpoint) (incl : Bool)
    (h : remove_format_extension ("/" ++ pyJoin "/"
        ((pySplit (extract_clean_path_from_string d.path) "/").filter (fun p => p ≠ ""))) =
      extract_clean_path_from_string d.path) :
    decode_key (convert_endpoint_to_postman_item d incl) =
      (d.method, extract_clean_path_from_string d.path) := by
  simp only [decode_key, convert_endpoint_to_postman_item, Option.getD_some,
    extract_clean_path_from_postman_url]
  rw [h]

/-- C4 witness: the round trip at `GET /widgets.json`, whose normalized
path `/widgets` survives the segment-list round trip. -/
theorem C4_witness :
    decode_key (convert_endpoint_to_postman_item ⟨"GET", "/widgets.json", "", "", "", [], []⟩
        false) =
      (Endpoint.method ⟨"GET", "/widgets.json", "", "", "", [], []⟩,
       extract_clean_path_from_string (Endpoint.path ⟨"GET", "/widgets.json", "", "", "", [], []⟩)) :=
  C4_amended ⟨"GET", "/widgets.json", "", "", "", [], []⟩ false (by decide)

/-- C4 counterexample: for the descriptor `GET users` (no leading slash)
the encoded item's URL path list is `["users"]`, so decoding yields
`(GET, "/users")`, not `(GET, normalize("users")) = (GET, "users")`. -/
theorem C4_counterexample :
    decode_key (convert_endpoint_to_postman_item usersEndpoint false) ≠
      (usersEndpoint.method, extract_clean_path_from_string usersEndpoint.path) := by
  decide

/-- C2 (corrected): when the Change Detector reports no changes, the
`unchanged` classification leaves the stored mapping entry untouched — the
existing item is kept and the freshly regenerated candidate is discarded;
only the `updated` classification overwrites the entry.  (The claim, and
the spec sentence it quotes, say the candidate overwrites the entry in
either case; the code only appends to `unchanged_endpoints` in the no-change
branch, src:247.) -/
theorem C2_amended (incl pres : Bool) (st : StepState) (d : Endpoint) (E : PItem)
    (hfind : dictFind st.lookup (endpointKey d) = some E)
    (hsame : items_are_different E
      (if pres then merge_postman_items_with_preservation E
          (convert_endpoint_to_postman_item d incl)
        else convert_endpoint_to_postman_item d incl) = false) :
    smart_step incl pres st d = { st with unchs := st.unchs ++ [endpointReportName d] } := by
  unfold smart_step
  simp only [hfind, hsame]
  rfl

/-- C2 witness: one unchanged step over a concrete one-entry lookup keeps
the state's lookup and appends the report name. -/
theorem C2_witness :
    smart_step false true ⟨[(endpointKey widgetsEndpoint, widgetsItem)], [], [], []⟩
        widgetsEndpoint =
      { lookup := [(endpointKey widgetsEndpoint, widgetsItem)], news := [], upds := [],
        unchs := [] ++ [endpointReportName widgetsEndpoint] } :=
  C2_amended false true ⟨[(endpointKey widgetsEndpoint, widgetsItem)], [], [], []⟩
    widgetsEndpoint widgetsItem (by rfl) (by decide)

/-- C2 counterexample: a run in which the candidate differs from the
stored item outside the compared axes (its regenerated name) is classified
unchanged, and the output keeps the stored item — the candidate does not
replace it, contradicting the claim. -/
theorem C2_counterexample :
    (smart_update_core [widgetsItem] [widgetsEndpoint] false true).unchs =
        [endpointReportName widgetsEndpoint]
    ∧ (smart_update_core [widgetsItem] [widgetsEndpoint] false true).items = [widgetsItem]
    ∧ (merge_postman_items_with_preservation widgetsItem
        (convert_endpoint_to_postman_item widgetsEndpoint false)).name ≠ widgetsItem.name :=
  ⟨by decide, rfl, by decide⟩

theorem chSplitFirst_prefix (sep : List Char) :
    ∀ (l b a : List Char), chSplitFirst sep l = some (b, a) → b <+: l := by
  intro l
  induction l with
  | nil =>
    intro b a h
    unfold chSplitFirst at h
    split at h
    · injection h with h'
      obtain ⟨rfl, rfl⟩ := Prod.mk.injEq .. ▸ And.intro (congrArg Prod.fst h') (congrArg Prod.snd h')
      exact List.nil_prefix
    · cases h
  | cons c rest ih =>
    intro b a h
    unfold chSplitFirst at h
    split at h
    · injection h with h'
      have hb : b = [] := (congrArg Prod.fst h').symm
      subst hb
      exact List.nil_prefix
    · cases hrec : chSplitFirst sep rest with
      | none => rw [hrec] at h; cases h
      | some p =>
        obtain ⟨b', a'⟩ := p
        rw [hrec] at h
        injection h with h'
        have hb : b = c :: b' := (congrArg Prod.fst h').symm
        subst hb
        exact List.cons_prefix_cons.mpr ⟨rfl, ih b' a' hrec⟩

theorem chSplitFirst_single_not_mem (d : Char) :
    ∀ (l b a : List Char), chSplitFirst [d] l = some (b, a) → d ∉ b := by
  intro l
  induction l with
  | nil =>
    intro b a h
    unfold chSplitFirst at h
    simp at h
  | cons c rest ih =>
    intro b a h
    unfold chSplitFirst at h
    split at h
    · injection h with h'
      have hb : b = [] := (congrArg Prod.fst h').symm
      subst hb
      simp
    · rename_i hnp
      have hdc : d ≠ c := by
        intro he
        subst he
        simp [List.isPrefixOf] at hnp
      cases hrec : chSplitFirst [d] rest with
      | none => rw [hrec] at h; cases h
      | some p =>
        obtain ⟨b', a'⟩ := p
        rw [hrec] at h
        injection h with h'
        have hb : b = c :: b' := (congrArg Prod.fst h').symm
        subst hb
        intro hm
        rcases List.mem_cons.mp hm with he | hm'
        · exact hdc he
        · exact ih b' a' hrec hm'

theorem chSplitFirst_single_none_iff (d : Char) (l : List Char) :
    chSplitFirst [d] l = none ↔ d ∉ l := by
  induction l with
  | nil => simp [chSplitFirst]
  | cons c rest ih =>
    unfold chSplitFirst
    split
    · rename_i hp
      have hdc : d = c := by simpa [List.isPrefixOf] using hp
      subst hdc
      simp
    · rename_i hp
      have hdc : d ≠ c := by
        intro he
        subst he
        simp [List.isPrefixOf] at hp
      cases hrec : chSplitFirst [d] rest with
      | none =>
        have ihm : d ∉ rest := ih.mp hrec
        simp [hrec, hdc, ihm]
      | some p =>
        obtain ⟨b', a'⟩ := p
        have hdm : d ∈ rest := by
          by_contra hnm
          have := ih.mpr hnm
          rw [hrec] at this
          cases this
        simp [hrec, hdm]

theorem pyBefore_prefix (s sep : String) : (pyBefore s sep).data <+: s.data := by
  unfold pyBefore
  cases h : chSplitFirst sep.data s.data with
  | none => exact List.prefix_refl _
  | some p =>
    obtain ⟨b, a⟩ := p
    exact chSplitFirst_prefix sep.data s.data b a h

theorem pyBefore_single_not_mem (s sep : String) (d : Char) (hsep : sep.data = [d])
    (hc : pyContains s sep = true) : d ∉ (pyBefore s sep).data := by
  unfold pyContains at hc
  unfold pyBefore
  rw [hsep] at hc ⊢
  cases h : chSplitFirst [d] s.data with
  | none => rw [h] at hc; cases hc
  | some p =>
    obtain ⟨b, a⟩ := p
    exact chSplitFirst_single_not_mem d s.data b a h

theorem pyContains_single_false_iff (s sep : String) (d : Char) (hsep : sep.data = [d]) :
    pyContains s sep = false ↔ d ∉ s.data := by
  unfold pyContains
  rw [hsep, ← chSplitFirst_single_none_iff d s.data]
  cases chSplitFirst [d] s.data <;> simp

theorem remove_format_extension_take (s : String) :
    ∃ k, (remove_format_extension s).data = s.data.take k := by
  unfold remove_format_extension
  split_ifs
  all_goals first
    | exact ⟨s.data.length - 5, rfl⟩
    | exact ⟨s.data.length - 4, rfl⟩
    | exact ⟨s.data.length, (List.take_length s.data).symm⟩

theorem remove_format_extension_of_not_ext (s : String)
    (h : hasFormatExtension s = false) : remove_format_extension s = s := by
  unfold hasFormatExtension at h
  rw [Bool.or_eq_false_iff, Bool.or_eq_false_iff, Bool.or_eq_false_iff,
    Bool.or_eq_false_iff, Bool.or_eq_false_iff] at h
  unfold remove_format_extension
  simp [h.1.1.1.1.1, h.1.1.1.1.2, h.1.1.1.2, h.1.1.2, h.1.2, h.2]

/-- C3 (corrected): path normalization is idempotent for inputs that do
not start with `http` and whose normalized result does not itself end in a
format extension; in general it is not idempotent, because a second
application strips a second stacked extension (see the counterexample) —
and on `http`-prefixed inputs the standard library's scheme stripping is
itself non-idempotent. -/
theorem C3_amended (x : String) (hhttp : pyStartsWith x "http" = false)
    (hext : hasFormatExtension (extract_clean_path_from_string x) = false) :
    extract_clean_path_from_string (extract_clean_path_from_string x) =
      extract_clean_path_from_string x := by
  have hqd : ("?" : String).data = ['?'] := rfl
  have h1 : extract_clean_path_from_string x =
      remove_format_extension (if pyContains x "?" = true then pyBefore x "?" else x) := by
    unfold extract_clean_path_from_string
    simp [hhttp]
  have h2 : (if pyContains x "?" = true then pyBefore x "?" else x).data <+: x.data := by
    split
    · exact pyBefore_prefix x "?"
    · exact List.prefix_refl _
  have h3 : '?' ∉ (if pyContains x "?" = true then pyBefore x "?" else x).data := by
    split
    · rename_i hq
      exact pyBefore_single_not_mem x "?" '?' hqd hq
    · rename_i hq
      exact (pyContains_single_false_iff x "?" '?' hqd).mp (Bool.eq_false_iff.mpr hq)
  set c := if pyContains x "?" = true then pyBefore x "?" else x with hc
  obtain ⟨k, hk⟩ := remove_format_extension_take c
  have h4 : (remove_format_extension c).data <+: x.data := by
    rw [hk]
    exact (List.take_prefix k c.data).trans h2
  have h5 : '?' ∉ (remove_format_extension c).data := by
    rw [hk]
    exact fun hm => h3 (List.take_subset k c.data hm)
  have h6 : pyStartsWith (remove_format_extension c) "http" = false := by
    rw [Bool.eq_false_iff]
    intro hcon
    have hpre : ("http" : String).data <+: (remove_format_extension c).data :=
      List.isPrefixOf_iff_prefix.mp hcon
    have : pyStartsWith x "http" = true :=
      List.isPrefixOf_iff_prefix.mpr (hpre.trans h4)
    rw [this] at hhttp
    cases hhttp
  have h7 : pyContains (remove_format_extension c) "?" = false :=
    (pyContains_single_false_iff _ "?" '?' hqd).mpr h5
  have hext' : hasFormatExtension (remove_format_extension c) = false := by
    rw [h1] at hext
    exact hext
  rw [h1]
  unfold extract_clean_path_from_string
  simp only [h6, h7, Bool.false_eq_true, if_false]
  exact remove_format_extension_of_not_ext _ hext'

/-- C3 witness: idempotence at `"/users?active=true"`. -/
theorem C3_witness :
    extract_clean_path_from_string (extract_clean_path_from_string "/users?active=true") =
      extract_clean_path_from_string "/users?active=true" :=
  C3_amended "/users?active=true" (by decide) (by decide)

/-- C3 counterexample: normalization is not idempotent on
`"/users.json.json"` — the first application strips one `.json`, the
second strips another. -/
theorem C3_counterexample :
    extract_clean_path_from_string (extract_clean_path_from_string "/users.json.json") ≠
      extract_clean_path_from_string "/users.json.json" := by
  decide

/-- C8 (corrected): the reconciler is a fixed point after one pass for a
single-descriptor batch with `preserve_existing_docs = true` exactly when
the descriptor's key survives the encode/decode round trip (the key the
lookup derives from the freshly stored item equals the descriptor's own
key): the second run then reports no new and no updated entries, exactly
one unchanged entry, and returns the first run's item collection
unchanged.  Without the round-trip condition the second run re-classifies
the endpoint as new (see the counterexample). -/
theorem C8_amended (d : Endpoint) (incl : Bool)
    (h : itemKeyOf (convert_endpoint_to_postman_item d incl) = endpointKey d) :
    smart_update_core (smart_update_core [] [d] incl true).items [d] incl true =
      ⟨[], [], [endpointReportName d], (smart_update_core [] [d] incl true).items⟩ := by
  have hr1 : (smart_update_core [] [d] incl true).items =
      [convert_endpoint_to_postman_item d incl] := rfl
  rw [hr1]
  have hfind : dictFind (buildLookup [convert_endpoint_to_postman_item d incl])
      (endpointKey d) = some (convert_endpoint_to_postman_item d incl) := by
    have hb : buildLookup [convert_endpoint_to_postman_item d incl] =
        [(itemKeyOf (convert_endpoint_to_postman_item d incl),
          convert_endpoint_to_postman_item d incl)] := rfl
    rw [hb, h]
    simp [dictFind]
  have hstep : smart_step incl true
      ⟨buildLookup [convert_endpoint_to_postman_item d incl], [], [], []⟩ d =
      ⟨buildLookup [convert_endpoint_to_postman_item d incl], [], [],
        [endpointReportName d]⟩ := by
    unfold smart_step
    simp [hfind, merge_postman_items_with_preservation_self, items_are_different_self]
  unfold smart_update_core
  rw [List.foldl_cons, List.foldl_nil, hstep]
  rfl

/-- C8 witness: the fixed point at the round-tripping descriptor
`GET /widgets` with full documentation generation. -/
theorem C8_witness :
    smart_update_core (smart_update_core [] [widgetsEndpoint] true true).items
        [widgetsEndpoint] true true =
      ⟨[], [], [endpointReportName widgetsEndpoint],
        (smart_update_core [] [widgetsEndpoint] true true).items⟩ :=
  C8_amended widgetsEndpoint true (by decide)

/-- C8 counterexample: for the single descriptor `GET users` (path without
a leading slash) the second run against the first run's output reports the
endpoint as new again and nothing as unchanged, because the stored item
decodes to the key `GET:/users` while the descriptor encodes to
`GET:users`. -/
theorem C8_counterexample :
    (smart_update_core (smart_update_core [] [usersEndpoint] true true).items
        [usersEndpoint] true true).news = [endpointReportName usersEndpoint]
    ∧ (smart_update_core (smart_update_core [] [usersEndpoint] true true).items
        [usersEndpoint] true true).unchs = [] := by
  constructor
  · decide
  · decide

theorem smart_step_characterization (incl pres : Bool) (st : StepState) (d : Endpoint) :
    (∀ k, k ∈ (smart_step incl pres st d).lookup.map Prod.fst ↔
      k ∈ st.lookup.map Prod.fst ∨ k = endpointKey d)
    ∧ ((st.lookup.map Prod.fst).Nodup →
      ((smart_step incl pres st d).lookup.map Prod.fst).Nodup)
    ∧ (∀ k, k ≠ endpointKey d →
      dictFind (smart_step incl pres st d).lookup k = dictFind st.lookup k)
    ∧ (∀ s, s ∈ (smart_step incl pres st d).news ++ (smart_step incl pres st d).upds
        ++ (smart_step incl pres st d).unchs ↔
      s ∈ st.news ++ st.upds ++ st.unchs ∨ s = endpointReportName d) := by
  unfold smart_step
  cases hfind : dictFind st.lookup (endpointKey d) with
  | some E =>
    have hmem := mem_of_find_some st.lookup (endpointKey d) E hfind
    by_cases hdiff : items_are_different E
        (if pres = true then merge_postman_items_with_preservation E
            (convert_endpoint_to_postman_item d incl)
          else convert_endpoint_to_postman_item d incl) = true
    · simp only [hfind, hdiff, if_true]
      have hkeys := keys_assign_of_find_some st.lookup (endpointKey d)
        (if pres = true then merge_postman_items_with_preservation E
            (convert_endpoint_to_postman_item d incl)
          else convert_endpoint_to_postman_item d incl) E hfind
      refine ⟨?_, ?_, ?_, ?_⟩
      · intro k
        simp only [hkeys]
        constructor
        · exact fun hk => Or.inl hk
        · rintro (hk | rfl)
          · exact hk
          · exact hmem.1
      · intro hnd
        rw [hkeys]
        exact hnd
      · intro k hk
        exact dictFind_assign_ne st.lookup (endpointKey d) k _ hk
      · intro s
        simp only [List.mem_append, List.mem_singleton]
        tauto
    · simp only [hfind]
      rw [if_neg hdiff]
      refine ⟨?_, ?_, ?_, ?_⟩
      · intro k
        constructor
        · exact fun hk => Or.inl hk
        · rintro (hk | rfl)
          · exact hk
          · exact hmem.1
      · exact fun hnd => hnd
      · intro k _
        rfl
      · intro s
        simp only [List.mem_append, List.mem_singleton]
        tauto
  | none =>
    have hnmem := (dictFind_eq_none_iff st.lookup (endpointKey d)).mp hfind
    have hassign := assign_of_find_none st.lookup (endpointKey d)
      (convert_endpoint_to_postman_item d incl) hfind
    simp only [hfind, hassign]
    refine ⟨?_, ?_, ?_, ?_⟩
    · intro k
      simp [List.mem_append]
    · intro hnd
      simp [List.nodup_append, hnmem, hnd]
    · intro k hk
      rw [← hassign]
      exact dictFind_assign_ne st.lookup (endpointKey d) k _ hk
    · intro s
      simp only [List.mem_append, List.mem_singleton]
      tauto

theorem smart_fold_invariant (incl pres : Bool) :
    ∀ (eps : List Endpoint) (st : StepState),
      (∀ k, k ∈ (eps.foldl (smart_step incl pres) st).lookup.map Prod.fst ↔
        k ∈ st.lookup.map Prod.fst ∨ k ∈ eps.map endpointKey)
      ∧ ((st.lookup.map Prod.fst).Nodup →
        ((eps.foldl (smart_step incl pres) st).lookup.map Prod.fst).Nodup)
      ∧ (∀ k, k ∉ eps.map endpointKey →
        dictFind (eps.foldl (smart_step incl pres) st).lookup k = dictFind st.lookup k)
      ∧ (∀ s, s ∈ (eps.foldl (smart_step incl pres) st).news
          ++ (eps.foldl (smart_step incl pres) st).upds
          ++ (eps.foldl (smart_step incl pres) st).unchs ↔
        s ∈ st.news ++ st.upds ++ st.unchs ∨ s ∈ eps.map endpointReportName) := by
  intro eps
  induction eps with
  | nil => intro st; simp
  | cons d eps ih =>
    intro st
    rw [List.foldl_cons]
    obtain ⟨sk, snd, sf, sr⟩ := smart_step_characterization incl pres st d
    obtain ⟨ik, ind, ifd, ir⟩ := ih (smart_step incl pres st d)
    refine ⟨?_, ?_, ?_, ?_⟩
    · intro k
      rw [ik k]
      simp only [List.map_cons, List.mem_cons]
      rw [sk k]
      tauto
    · exact fun hnd => ind (snd hnd)
    · intro k hk
      simp only [List.map_cons, List.mem_cons] at hk
      push_neg at hk
      rw [ifd k (fun hm => hk.2 hm)]
      exact sf k hk.1
    · intro s
      rw [ir s]
      simp only [List.map_cons, List.mem_cons]
      rw [sr s]
      tauto

theorem buildLookup_eq_map (items : List PItem)
    (h1 : ∀ i ∈ items, i.request.isSome = true)
    (h2 : (items.map itemKeyOf).Nodup) :
    buildLookup items = items.map (fun i => (itemKeyOf i, i)) := by
  have haux : ∀ (its : List PItem) (acc : List (String × PItem)),
      (∀ i ∈ its, i.request.isSome = true) →
      (∀ i ∈ its, itemKeyOf i ∉ acc.map Prod.fst) →
      (its.map itemKeyOf).Nodup →
      its.foldl (fun acc item =>
        match item.request with
        | some req => dictAssign acc (itemKey req) item
        | none => acc) acc = acc ++ its.map (fun i => (itemKeyOf i, i)) := by
    intro its
    induction its with
    | nil => intro acc _ _ _; simp
    | cons i rest ih =>
      intro acc hreq hacc hnd
      rw [List.foldl_cons]
      obtain ⟨req, hreqi⟩ := Option.isSome_iff_exists.mp (hreq i (by simp))
      have hkey : itemKey req = itemKeyOf i := by
        unfold itemKeyOf
        rw [hreqi, Option.getD_some]
      have hfind : dictFind acc (itemKey req) = none := by
        rw [hkey]
        exact (dictFind_eq_none_iff acc (itemKeyOf i)).mpr (hacc i (by simp))
      rw [List.map_cons, List.nodup_cons] at hnd
      have hstep : (match i.request with
          | some req => dictAssign acc (itemKey req) i
          | none => acc) = acc ++ [(itemKeyOf i, i)] := by
        rw [hreqi]
        show dictAssign acc (itemKey req) i = acc ++ [(itemKeyOf i, i)]
        rw [assign_of_find_none acc (itemKey req) i hfind, hkey]
      rw [hstep]
      rw [ih (acc ++ [(itemKeyOf i, i)])
        (fun j hj => hreq j (by simp [hj]))
        (fun j hj => by
          simp only [List.map_append, List.mem_append, List.map_cons]
          rintro (hja | hjb)
          · exact hacc j (by simp [hj]) hja
          · simp at hjb
            exact hnd.1 (hjb ▸ List.mem_map_of_mem itemKeyOf hj))
        hnd.2]
      simp
  exact haux items [] h1 (by simp) h2

/-- C1 (corrected): for existing collections in which every item carries a
`request` key and item keys are pairwise distinct, one reconciler run
reports exactly the input descriptors' keys as `new ∪ updated ∪
unchanged`; every existing item whose key no descriptor carries is in the
output unchanged; and the final mapping holds exactly one entry per key,
its key set being the existing keys united with the descriptor keys.  (As
stated the claim fails: items without a `request` key are silently dropped
from the output, and among duplicate-key existing items only the last
survives — see the counterexample.) -/
theorem C1_amended (existing_items : List PItem) (endpoints : List Endpoint)
    (incl pres : Bool)
    (h1 : ∀ i ∈ existing_items, i.request.isSome = true)
    (h2 : (existing_items.map itemKeyOf).Nodup) :
    (∀ s, s ∈ (smart_update_core existing_items endpoints incl pres).news
        ++ (smart_update_core existing_items endpoints incl pres).upds
        ++ (smart_update_core existing_items endpoints incl pres).unchs ↔
      s ∈ endpoints.map endpointReportName)
    ∧ (∀ item ∈ existing_items, itemKeyOf item ∉ endpoints.map endpointKey →
        item ∈ (smart_update_core existing_items endpoints incl pres).items)
    ∧ ((finalState existing_items endpoints incl pres).lookup.map Prod.fst).Nodup
    ∧ (∀ k, k ∈ (finalState existing_items endpoints incl pres).lookup.map Prod.fst ↔
        k ∈ existing_items.map itemKeyOf ∨ k ∈ endpoints.map endpointKey) := by
  have hb := buildLookup_eq_map existing_items h1 h2
  have hkeys0 : (buildLookup existing_items).map Prod.fst = existing_items.map itemKeyOf := by
    rw [hb, List.map_map]
    rfl
  obtain ⟨ik, ind, ifd, ir⟩ := smart_fold_invariant incl pres endpoints
    ⟨buildLookup existing_items, [], [], []⟩
  have hfold : finalState existing_items endpoints incl pres =
      endpoints.foldl (smart_step incl pres) ⟨buildLookup existing_items, [], [], []⟩ := rfl
  have hnews : (smart_update_core existing_items endpoints incl pres).news =
      (endpoints.foldl (smart_step incl pres) ⟨buildLookup existing_items, [], [], []⟩).news := rfl
  have hupds : (smart_update_core existing_items endpoints incl pres).upds =
      (endpoints.foldl (smart_step incl pres) ⟨buildLookup existing_items, [], [], []⟩).upds := rfl
  have hunchs : (smart_update_core existing_items endpoints incl pres).unchs =
      (endpoints.foldl (smart_step incl pres) ⟨buildLookup existing_items, [], [], []⟩).unchs := rfl
  have hitems : (smart_update_core existing_items endpoints incl pres).items =
      (endpoints.foldl (smart_step incl pres)
        ⟨buildLookup existing_items, [], [], []⟩).lookup.map Prod.snd := rfl
  refine ⟨?_, ?_, ?_, ?_⟩
  · intro s
    rw [hnews, hupds, hunchs, ir s]
    simp
  · intro item hm hk
    have hfind0 : dictFind (buildLookup existing_items) (itemKeyOf item) = some item := by
      rw [hb]
      refine dictFind_of_mem_nodup _ _ _
        (List.mem_map_of_mem (fun i => (itemKeyOf i, i)) hm) ?_
      rw [List.map_map]
      exact h2
    have hfindF : dictFind (endpoints.foldl (smart_step incl pres)
        ⟨buildLookup existing_items, [], [], []⟩).lookup (itemKeyOf item) = some item := by
      rw [ifd (itemKeyOf item) hk]
      exact hfind0
    rw [hitems]
    exact (mem_of_find_some _ _ _ hfindF).2
  · rw [hfold]
    exact ind (by rw [hkeys0]; exact h2)
  · intro k
    rw [hfold, ik k, hkeys0]

/-- C1 witness: the amended invariant at a concrete one-item, one-new-
descriptor instance. -/
theorem C1_witness :
    (∀ s, s ∈ (smart_update_core [widgetsItem] [usersEndpoint] true true).news
        ++ (smart_update_core [widgetsItem] [usersEndpoint] true true).upds
        ++ (smart_update_core [widgetsItem] [usersEndpoint] true true).unchs ↔
      s ∈ [usersEndpoint].map endpointReportName)
    ∧ (∀ item ∈ [widgetsItem], itemKeyOf item ∉ [usersEndpoint].map endpointKey →
        item ∈ (smart_update_core [widgetsItem] [usersEndpoint] true true).items)
    ∧ ((finalState [widgetsItem] [usersEndpoint] true true).lookup.map Prod.fst).Nodup
    ∧ (∀ k, k ∈ (finalState [widgetsItem] [usersEndpoint] true true).lookup.map Prod.fst ↔
        k ∈ [widgetsItem].map itemKeyOf ∨ k ∈ [usersEndpoint].map endpointKey) :=
  C1_amended [widgetsItem] [usersEndpoint] true true (by decide) (by decide)

/-- C1 counterexample: an existing item without a `request` key, matched
by no descriptor (the batch is empty), is dropped from the output
collection instead of being left in it unchanged. -/
theorem C1_counterexample :
    folderItem ∈ [folderItem]
    ∧ (smart_update_core [folderItem] [] true true).items = []
    ∧ folderItem ∉ (smart_update_core [folderItem] [] true true).items := by
  refine ⟨by simp, rfl, ?_⟩
  intro hmem
  rw [show (smart_update_core [folderItem] [] true true).items = [] from rfl] at hmem
  exact absurd hmem (List.not_mem_nil folderItem)

end RailsSync
